import Mathlib

/-!
Verification of the tile batch accumulation and layout engine of
`roguelike.h` (file `src/include/roguelike.h`, with the v2.0.0 variant in
`src/include/rlh/roguelike.h` where noted).  The definitions below are a
shallow embedding of the C code: machine integers are modelled as `Int` or
`Nat` with explicit reductions modulo 2^32 where the C code converts to
`unsigned int`, the tile byte buffer is modelled as a byte memory
`Nat → Nat` written through sequential single-byte stores exactly as the C
code writes `term->TileData[index++] = ...`, and `realloc` is modelled by
an allocation-success flag: on success the capacity field is updated and
the contents are preserved (the contract of `realloc`), on failure nothing
changes and `RLH_FALSE` is returned.
-/

/-- `RLH_DATA_BYTES_PER_TILE` from src/include/roguelike.h line 516. -/
def RLH_DATA_BYTES_PER_TILE : Nat := 18

/-- `RLH_TILE_POSITION_OFFSET` from src/include/roguelike.h line 520. -/
def RLH_TILE_POSITION_OFFSET : Int := 16384

/-- `RLH_MAX_TILE_SIZE` from src/include/roguelike.h line 521. -/
def RLH_MAX_TILE_SIZE : Int := 65565

/-- The result enumeration `rlhresult_t` from src/include/roguelike.h
lines 287-296.  The numeric values carried by the C enum are given by
`rlhresult_value` below. -/
inductive rlhresult_t where
  | RLH_RESULT_OK
  | RLH_RESULT_TILE_OUT_OF_TERMINAL
  | RLH_RESULT_ERROR_NULL_ARGUMENT
  | RLH_RESULT_ERROR_INVALID_VALUE
  | RLH_RESULT_ERROR_OUT_OF_MEMORY
deriving DecidableEq, Repr

/-- The numeric value each `rlhresult_t` enumerator has in
src/include/roguelike.h lines 287-296 (`RLH_RESULT_OK = 0`,
`RLH_RESULT_TILE_OUT_OF_TERMINAL = 2`, then 3, 4, 5; the value 1 is
unused). -/
def rlhresult_value : rlhresult_t → Nat
  | .RLH_RESULT_OK => 0
  | .RLH_RESULT_TILE_OUT_OF_TERMINAL => 2
  | .RLH_RESULT_ERROR_NULL_ARGUMENT => 3
  | .RLH_RESULT_ERROR_INVALID_VALUE => 4
  | .RLH_RESULT_ERROR_OUT_OF_MEMORY => 5

/-- `RLH_RESULT_COUNT` from src/include/roguelike.h line 295. -/
def RLH_RESULT_COUNT : Nat := 5

/-- `RLH_RESULT_DESCRIPTIONS` from src/include/roguelike.h lines 403-405:
an array of `RLH_RESULT_COUNT` strings. -/
def RLH_RESULT_DESCRIPTIONS : List String :=
  [ "no errors occured", "tile out of terminal", "unexpected null argument",
    "unexpected argument value", "out of memory" ]

/-- `rlhColor32_s` from src/include/roguelike.h: four `uint8_t` channels. -/
structure rlhColor32_s where
  r : Nat
  g : Nat
  b : Nat
  a : Nat
deriving DecidableEq, Repr

/-- `rlhTerm_s` from src/include/roguelike.h lines 523-541.  The OpenGL
handles (`Program`, `VAO`, `DataBUF`, `DataTEX`) are external GPU resources
and are not part of the modelled state.  `TileData` is the malloc'd byte
array, modelled as a total byte memory indexed from the start of the
allocation; `TileDataCapacity` counts allocated tile slots. -/
structure rlhTerm_s where
  PixelWidth : Nat
  PixelHeight : Nat
  TilesWide : Nat
  TilesTall : Nat
  PixelScale : ℚ
  TileWidth : Nat
  TileHeight : Nat
  TileDataCapacity : Nat
  TileDataCount : Nat
  TileData : Nat → Nat

/-- `rlhAtlas_s` from src/include/roguelike.h lines 543-554.  The OpenGL
handles (`AtlasTEX`, `FontmapBUF`, `FontmapTEX`) are external resources. -/
structure rlhAtlas_s where
  PixelWidth : Nat
  PixelHeight : Nat
  PageCount : Nat
  GlyphCount : Nat
deriving DecidableEq, Repr

/-- Conversion of a C `int` value to `unsigned int` (reduction modulo
2^32, giving a nonnegative representative). -/
def toU32 (x : Int) : Nat := (x % 4294967296).toNat

/-- A single byte store `mem[i] = v`. -/
def memWrite (mem : Nat → Nat) (i : Nat) (v : Nat) : Nat → Nat :=
  fun j => if j = i then v else mem j

/-- Sequential byte stores starting at index `i`, mirroring the chain of
`term->TileData[index++] = ...` assignments. -/
def memWriteList (mem : Nat → Nat) (i : Nat) : List Nat → (Nat → Nat)
  | [] => mem
  | b :: bs => memWriteList (memWrite mem i b) (i + 1) bs

/-- The 18 record bytes written by `_rlhTermPushTile`
(src/include/roguelike.h lines 1049-1075): biased 16-bit little-endian
x and y position, 16-bit little-endian width, height and glyph, then the
four fg and four bg color channels.  Byte extraction `v & 0xff` and
`(v >> 8) & 0xff` on a C `int`/`unsigned int` equals `% 256` and
`/ 256 % 256` of the value reduced modulo 2^32. -/
def tileRecordBytes (pixel_x pixel_y pixel_w pixel_h : Int) (glyph : Nat)
    (fg bg : rlhColor32_s) : List Nat :=
  let offset_pixel_x := toU32 (pixel_x + RLH_TILE_POSITION_OFFSET)
  let offset_pixel_y := toU32 (pixel_y + RLH_TILE_POSITION_OFFSET)
  let w := toU32 pixel_w
  let h := toU32 pixel_h
  [ offset_pixel_x % 256, offset_pixel_x / 256 % 256,
    offset_pixel_y % 256, offset_pixel_y / 256 % 256,
    w % 256, w / 256 % 256,
    h % 256, h / 256 % 256,
    glyph % 256, glyph / 256 % 256,
    fg.r, fg.g, fg.b, fg.a,
    bg.r, bg.g, bg.b, bg.a ]

/-- `_rlhTermTryReserve` (src/include/roguelike.h lines 1031-1047).  When
`TileDataCount == TileDataCapacity` the capacity is doubled and the buffer
is reallocated; `allocOk` models whether `realloc` succeeds.  On failure
the function returns `RLH_FALSE` and the terminal is untouched; on success
`realloc` preserves the buffer contents (here: `TileData` unchanged) and
the new capacity is recorded. -/
def _rlhTermTryReserve (allocOk : Bool) (term : rlhTerm_s) :
    Bool × rlhTerm_s :=
  if term.TileDataCount = term.TileDataCapacity then
    let new_capacity := term.TileDataCapacity * 2
    if allocOk then
      (true, { term with TileDataCapacity := new_capacity })
    else
      (false, term)
  else
    (true, term)

/-- `_rlhTermPushTile` (src/include/roguelike.h lines 1049-1075): writes
the 18 record bytes at byte index `TileDataCount * RLH_DATA_BYTES_PER_TILE`
and increments `TileDataCount`. -/
def _rlhTermPushTile (term : rlhTerm_s) (pixel_x pixel_y pixel_w pixel_h : Int)
    (glyph : Nat) (fg bg : rlhColor32_s) : rlhTerm_s :=
  let index := term.TileDataCount * RLH_DATA_BYTES_PER_TILE
  { term with
    TileData :=
      memWriteList term.TileData index
        (tileRecordBytes pixel_x pixel_y pixel_w pixel_h glyph fg bg)
    TileDataCount := term.TileDataCount + 1 }

/-- `rlhTermClearTileData` (src/include/roguelike.h lines 952-962), on a
non-null terminal; the null-handle check lives in
`rlhTermClearTileDataOpt`. -/
def rlhTermClearTileData (term : rlhTerm_s) : rlhresult_t × rlhTerm_s :=
  (.RLH_RESULT_OK, { term with TileDataCount := 0 })

/-- `rlhTermPushFillTile` (src/include/roguelike.h lines 1077-1083). -/
def rlhTermPushFillTile (allocOk : Bool) (term : rlhTerm_s) (glyph : Nat)
    (fg bg : rlhColor32_s) : rlhresult_t × rlhTerm_s :=
  match _rlhTermTryReserve allocOk term with
  | (false, term') => (.RLH_RESULT_ERROR_OUT_OF_MEMORY, term')
  | (true, term') =>
    (.RLH_RESULT_OK,
      _rlhTermPushTile term' 0 0 (term'.PixelWidth : Int)
        (term'.PixelHeight : Int) glyph fg bg)

/-- `rlhTermPushTileGrid` (src/include/roguelike.h lines 1085-1096).
The bounds check rejects `grid_x < 0`, `grid_y < 0`,
`grid_x > TilesWide` and `grid_y > TilesTall` (note: strict `>`, so a
coordinate equal to the grid dimension is accepted); `grid_x` is only
compared against the `size_t` fields after the negativity test, so the
comparison behaves as on mathematical integers. -/
def rlhTermPushTileGrid (allocOk : Bool) (term : rlhTerm_s)
    (grid_x grid_y : Int) (glyph : Nat) (fg bg : rlhColor32_s) :
    rlhresult_t × rlhTerm_s :=
  if grid_x < 0 ∨ grid_y < 0 ∨ grid_x > (term.TilesWide : Int) ∨
      grid_y > (term.TilesTall : Int) then
    (.RLH_RESULT_TILE_OUT_OF_TERMINAL, term)
  else
    let pixel_x : Int := grid_x * (term.TileWidth : Int)
    let pixel_y : Int := grid_y * (term.TileHeight : Int)
    match _rlhTermTryReserve allocOk term with
    | (false, term') => (.RLH_RESULT_ERROR_OUT_OF_MEMORY, term')
    | (true, term') =>
      (.RLH_RESULT_OK,
        _rlhTermPushTile term' pixel_x pixel_y (term'.TileWidth : Int)
          (term'.TileHeight : Int) glyph fg bg)

/-- `rlhTermPushTileGridSized` (src/include/roguelike.h lines 1098-1115):
the grid bounds check of `rlhTermPushTileGrid` followed by the explicit
size check `0 < size ≤ RLH_MAX_TILE_SIZE`. -/
def rlhTermPushTileGridSized (allocOk : Bool) (term : rlhTerm_s)
    (grid_x grid_y tile_pixel_width tile_pixel_height : Int) (glyph : Nat)
    (fg bg : rlhColor32_s) : rlhresult_t × rlhTerm_s :=
  if grid_x < 0 ∨ grid_y < 0 ∨ grid_x > (term.TilesWide : Int) ∨
      grid_y > (term.TilesTall : Int) then
    (.RLH_RESULT_TILE_OUT_OF_TERMINAL, term)
  else if tile_pixel_width ≤ 0 ∨ tile_pixel_height ≤ 0 ∨
      tile_pixel_width > RLH_MAX_TILE_SIZE ∨
      tile_pixel_height > RLH_MAX_TILE_SIZE then
    (.RLH_RESULT_TILE_OUT_OF_TERMINAL, term)
  else
    match _rlhTermTryReserve allocOk term with
    | (false, term') => (.RLH_RESULT_ERROR_OUT_OF_MEMORY, term')
    | (true, term') =>
      let pixel_x : Int := grid_x * (term'.TileWidth : Int)
      let pixel_y : Int := grid_y * (term'.TileHeight : Int)
      (.RLH_RESULT_OK,
        _rlhTermPushTile term' pixel_x pixel_y tile_pixel_width
          tile_pixel_height glyph fg bg)

/-- `rlhTermPushTileFree` (src/include/roguelike.h lines 1117-1130).  The
rejection test compares `screen_pixel_x` and `screen_pixel_y` against
`-TileWidth`, `-TileHeight`, `TileWidth` and `TileHeight` — the default
tile size, not the console pixel size (contrast with
`rlhTermPushTileFreeSized` below, which compares against `PixelWidth` and
`PixelHeight`).  The casts `(unsigned int)screen_pixel_x` passed back into
the `int` parameters of `_rlhTermPushTile` round-trip to the original
value on two's-complement targets. -/
def rlhTermPushTileFree (allocOk : Bool) (term : rlhTerm_s)
    (screen_pixel_x screen_pixel_y : Int) (glyph : Nat)
    (fg bg : rlhColor32_s) : rlhresult_t × rlhTerm_s :=
  let negative_default_width : Int := -(term.TileWidth : Int)
  let negative_default_height : Int := -(term.TileHeight : Int)
  if screen_pixel_x < negative_default_width ∨
      screen_pixel_y < negative_default_height ∨
      screen_pixel_x > (term.TileWidth : Int) ∨
      screen_pixel_y > (term.TileHeight : Int) then
    (.RLH_RESULT_TILE_OUT_OF_TERMINAL, term)
  else
    match _rlhTermTryReserve allocOk term with
    | (false, term') => (.RLH_RESULT_ERROR_OUT_OF_MEMORY, term')
    | (true, term') =>
      (.RLH_RESULT_OK,
        _rlhTermPushTile term' screen_pixel_x screen_pixel_y
          (term'.TileWidth : Int) (term'.TileHeight : Int) glyph fg bg)

/-- `rlhTermPushTileFreeSized` (src/include/roguelike.h lines 1132-1147):
position test against `-tile_pixel_width`, `-tile_pixel_height`,
`PixelWidth`, `PixelHeight`, then the size validity test, then reserve and
push. -/
def rlhTermPushTileFreeSized (allocOk : Bool) (term : rlhTerm_s)
    (screen_pixel_x screen_pixel_y tile_pixel_width tile_pixel_height : Int)
    (glyph : Nat) (fg bg : rlhColor32_s) : rlhresult_t × rlhTerm_s :=
  if screen_pixel_x < -tile_pixel_width ∨
      screen_pixel_y < -tile_pixel_height ∨
      screen_pixel_x > (term.PixelWidth : Int) ∨
      screen_pixel_y > (term.PixelHeight : Int) then
    (.RLH_RESULT_TILE_OUT_OF_TERMINAL, term)
  else if tile_pixel_width ≤ 0 ∨ tile_pixel_height ≤ 0 ∨
      tile_pixel_width > RLH_MAX_TILE_SIZE ∨
      tile_pixel_height > RLH_MAX_TILE_SIZE then
    (.RLH_RESULT_TILE_OUT_OF_TERMINAL, term)
  else
    match _rlhTermTryReserve allocOk term with
    | (false, term') => (.RLH_RESULT_ERROR_OUT_OF_MEMORY, term')
    | (true, term') =>
      (.RLH_RESULT_OK,
        _rlhTermPushTile term' screen_pixel_x screen_pixel_y
          tile_pixel_width tile_pixel_height glyph fg bg)

/-- `rlhTermResizePixelDimensions` (src/include/roguelike.h lines
994-1029), on a non-null terminal (null check in the `Opt` wrapper).
The C `float` scale is modelled as a rational; the `size_t` results of
the float divisions and multiplications are floors (the values involved
are nonnegative, so C truncation toward zero is the floor).  After the
dimension fields are recomputed the function sets `TileDataCount = 0`
("clear tile data because it may no longer fit") and touches neither
`TileDataCapacity` nor the buffer. -/
def rlhTermResizePixelDimensions (term : rlhTerm_s)
    (pixel_width pixel_height : Int) (pixel_scale : ℚ)
    (tile_width tile_height : Int) (floor_pixels_to_tiles : Bool) :
    rlhresult_t × rlhTerm_s :=
  if pixel_width ≤ 0 ∨ pixel_height ≤ 0 ∨ pixel_scale ≤ 0 ∨
      tile_width ≤ 0 ∨ tile_height ≤ 0 then
    (.RLH_RESULT_ERROR_INVALID_VALUE, term)
  else
    let tiles_wide := (⌊(pixel_width : ℚ) / ((tile_width : ℚ) * pixel_scale)⌋).toNat
    let tiles_tall := (⌊(pixel_height : ℚ) / ((tile_height : ℚ) * pixel_scale)⌋).toNat
    let pw :=
      if floor_pixels_to_tiles then
        (⌊((tiles_wide * tile_width.toNat : Nat) : ℚ) * pixel_scale⌋).toNat
      else pixel_width.toNat
    let ph :=
      if floor_pixels_to_tiles then
        (⌊((tiles_tall * tile_height.toNat : Nat) : ℚ) * pixel_scale⌋).toNat
      else pixel_height.toNat
    (.RLH_RESULT_OK,
      { term with
        PixelScale := pixel_scale
        TilesWide := tiles_wide
        TilesTall := tiles_tall
        TileWidth := tile_width.toNat
        TileHeight := tile_height.toNat
        PixelWidth := pw
        PixelHeight := ph
        TileDataCount := 0 })

/-- `rlhTermResizeTileDimensions` (src/include/roguelike.h lines
974-992), on a non-null terminal: validates its arguments, computes the
pixel dimensions `tiles * tile_size * pixel_scale` (an `int`, truncated
from the float product) and delegates to
`rlhTermResizePixelDimensions`. -/
def rlhTermResizeTileDimensions (term : rlhTerm_s)
    (tiles_wide tiles_tall : Int) (pixel_scale : ℚ)
    (tile_width tile_height : Int) : rlhresult_t × rlhTerm_s :=
  if tiles_wide ≤ 0 ∨ tiles_tall ≤ 0 ∨ pixel_scale ≤ 0 ∨
      tile_width ≤ 0 ∨ tile_height ≤ 0 then
    (.RLH_RESULT_ERROR_INVALID_VALUE, term)
  else
    let pixel_width : Int := ⌊((tiles_wide * tile_width : Int) : ℚ) * pixel_scale⌋
    let pixel_height : Int := ⌊((tiles_tall * tile_height : Int) : ℚ) * pixel_scale⌋
    rlhTermResizePixelDimensions term pixel_width pixel_height pixel_scale
      tile_width tile_height false

/-- `rlhAtlasSetData` (src/include/roguelike.h lines 677-711), on a
non-null atlas.  After validating the arguments the function only
recreates the OpenGL texture and refills the fontmap buffer object
(external GPU resources); it assigns none of the `rlhAtlas_s` struct
fields, and it receives no terminal, so no terminal state can change. -/
def rlhAtlasSetData (atlas : rlhAtlas_s)
    (atlas_pixel_width atlas_pixel_height atlas_page_count
      atlas_glyph_count : Int) : rlhresult_t × rlhAtlas_s :=
  if atlas_pixel_width ≤ 0 ∨ atlas_pixel_height ≤ 0 ∨
      atlas_page_count ≤ 0 ∨ atlas_glyph_count ≤ 0 then
    (.RLH_RESULT_ERROR_INVALID_VALUE, atlas)
  else
    (.RLH_RESULT_OK, atlas)

/-- A world of one terminal and one atlas, used to state what an atlas
operation does to a terminal.  `rlhAtlasSetData` acts on the atlas
component; the terminal component is untouched because the C function
never receives a terminal. -/
def rlhAtlasSetDataW (world : rlhTerm_s × rlhAtlas_s)
    (atlas_pixel_width atlas_pixel_height atlas_page_count
      atlas_glyph_count : Int) : rlhresult_t × (rlhTerm_s × rlhAtlas_s) :=
  let step := rlhAtlasSetData world.2 atlas_pixel_width atlas_pixel_height
    atlas_page_count atlas_glyph_count
  (step.1, (world.1, step.2))

/-- `rlhTermDrawMatrix` (src/include/roguelike.h lines 1273-1338), on
non-null arguments (null checks in the `Opt` wrapper).  If
`TileDataCount > 0` the buffer prefix is uploaded and one batched draw is
issued (the returned `Bool` reports whether a draw happened), then —
unless the implementation was compiled with `RLH_RETAINED_MODE`, here the
`retainedMode` flag — `rlhTermClearTileData` runs.  With no tiles the
function does nothing and still returns `RLH_RESULT_OK`. -/
def rlhTermDrawMatrix (retainedMode : Bool) (term : rlhTerm_s)
    (atlas : rlhAtlas_s) : rlhresult_t × rlhTerm_s × Bool :=
  if term.TileDataCount > 0 then
    let term' := if retainedMode then term else (rlhTermClearTileData term).2
    (.RLH_RESULT_OK, term', true)
  else
    (.RLH_RESULT_OK, term, false)

/-!
Handle-level wrappers.  A C handle is `Option rlhTerm_s`; `none` is a null
pointer.  Each wrapper returns `Option (rlhresult_t × Option rlhTerm_s)`:
`some (result, handle)` is a normal return, while `none` means the C code
dereferenced a null pointer — undefined behaviour.  Functions that test
`term == NULL` return `RLH_RESULT_ERROR_NULL_ARGUMENT`; the five push
variants perform no such test and dereference their handle at once.
-/

/-- `rlhTermClearTileData` null-handle layer (src/include/roguelike.h
lines 952-962): checks `term == NULL`. -/
def rlhTermClearTileDataOpt (term? : Option rlhTerm_s) :
    Option (rlhresult_t × Option rlhTerm_s) :=
  match term? with
  | none => some (.RLH_RESULT_ERROR_NULL_ARGUMENT, none)
  | some term =>
    let step := rlhTermClearTileData term
    some (step.1, some step.2)

/-- `rlhTermResizePixelDimensions` null-handle layer: checks
`term == NULL` before validating values. -/
def rlhTermResizePixelDimensionsOpt (term? : Option rlhTerm_s)
    (pixel_width pixel_height : Int) (pixel_scale : ℚ)
    (tile_width tile_height : Int) (floor_pixels_to_tiles : Bool) :
    Option (rlhresult_t × Option rlhTerm_s) :=
  match term? with
  | none => some (.RLH_RESULT_ERROR_NULL_ARGUMENT, none)
  | some term =>
    let step := rlhTermResizePixelDimensions term pixel_width pixel_height
      pixel_scale tile_width tile_height floor_pixels_to_tiles
    some (step.1, some step.2)

/-- `rlhTermResizeTileDimensions` null-handle layer: checks
`term == NULL` before validating values. -/
def rlhTermResizeTileDimensionsOpt (term? : Option rlhTerm_s)
    (tiles_wide tiles_tall : Int) (pixel_scale : ℚ)
    (tile_width tile_height : Int) :
    Option (rlhresult_t × Option rlhTerm_s) :=
  match term? with
  | none => some (.RLH_RESULT_ERROR_NULL_ARGUMENT, none)
  | some term =>
    let step := rlhTermResizeTileDimensions term tiles_wide tiles_tall
      pixel_scale tile_width tile_height
    some (step.1, some step.2)

/-- `rlhTermDrawMatrix` null-handle layer (src/include/roguelike.h lines
1273-1279): checks `term == NULL || atlas == NULL || matrix_4x4 == NULL`.
The matrix contents only feed a GPU uniform, so the matrix argument is
modelled by its nullness alone. -/
def rlhTermDrawMatrixOpt (retainedMode : Bool) (term? : Option rlhTerm_s)
    (atlas? : Option rlhAtlas_s) (matrix? : Option Unit) :
    Option (rlhresult_t × Option rlhTerm_s) :=
  match term?, atlas?, matrix? with
  | none, _, _ => some (.RLH_RESULT_ERROR_NULL_ARGUMENT, term?)
  | _, none, _ => some (.RLH_RESULT_ERROR_NULL_ARGUMENT, term?)
  | _, _, none => some (.RLH_RESULT_ERROR_NULL_ARGUMENT, term?)
  | some term, some atlas, some _ =>
    let step := rlhTermDrawMatrix retainedMode term atlas
    some (step.1, some step.2.1)

/-- `rlhTermDraw` (src/include/roguelike.h lines 1149-1159): checks
`term == NULL || atlas == NULL`, draws with the fixed screen matrix
(a non-null constant array) and returns `RLH_RESULT_OK`. -/
def rlhTermDrawOpt (retainedMode : Bool) (term? : Option rlhTerm_s)
    (atlas? : Option rlhAtlas_s) : Option (rlhresult_t × Option rlhTerm_s) :=
  match term?, atlas? with
  | none, _ => some (.RLH_RESULT_ERROR_NULL_ARGUMENT, term?)
  | _, none => some (.RLH_RESULT_ERROR_NULL_ARGUMENT, term?)
  | some term, some atlas =>
    let step := rlhTermDrawMatrix retainedMode term atlas
    some (.RLH_RESULT_OK, some step.2.1)

/-- `rlhTermDrawTranslated` (src/include/roguelike.h lines 1217-1242):
checks `term == NULL || atlas == NULL`, builds a translated matrix and a
scissor rectangle (GPU state), draws through `rlhTermDrawMatrix` with a
non-null local matrix, and returns `RLH_RESULT_OK`. -/
def rlhTermDrawTranslatedOpt (retainedMode : Bool) (term? : Option rlhTerm_s)
    (atlas? : Option rlhAtlas_s)
    (translate_x translate_y viewport_width viewport_height : Int) :
    Option (rlhresult_t × Option rlhTerm_s) :=
  match term?, atlas? with
  | none, _ => some (.RLH_RESULT_ERROR_NULL_ARGUMENT, term?)
  | _, none => some (.RLH_RESULT_ERROR_NULL_ARGUMENT, term?)
  | some term, some atlas =>
    let step := rlhTermDrawMatrix retainedMode term atlas
    some (.RLH_RESULT_OK, some step.2.1)

/-- `rlhTermDrawCentered` (src/include/roguelike.h lines 1199-1215):
checks `term == NULL || atlas == NULL` and delegates to
`rlhTermDrawTranslated` with a computed centering offset. -/
def rlhTermDrawCenteredOpt (retainedMode : Bool) (term? : Option rlhTerm_s)
    (atlas? : Option rlhAtlas_s) (viewport_width viewport_height : Int) :
    Option (rlhresult_t × Option rlhTerm_s) :=
  match term?, atlas? with
  | none, _ => some (.RLH_RESULT_ERROR_NULL_ARGUMENT, term?)
  | _, none => some (.RLH_RESULT_ERROR_NULL_ARGUMENT, term?)
  | some term, some atlas =>
    let translate_x := (viewport_width - (term.PixelWidth : Int)) / 2
    let translate_y := (viewport_height - (term.PixelHeight : Int)) / 2
    rlhTermDrawTranslatedOpt retainedMode (some term) (some atlas)
      translate_x translate_y viewport_width viewport_height

/-- `rlhTermDrawTransformed` (src/include/roguelike.h lines 1244-1271):
checks `term == NULL || atlas == NULL`; scale factors only affect the
matrix and scissor (GPU state). -/
def rlhTermDrawTransformedOpt (retainedMode : Bool) (term? : Option rlhTerm_s)
    (atlas? : Option rlhAtlas_s)
    (translate_x translate_y : Int) (scale_x scale_y : ℚ)
    (viewport_width viewport_height : Int) :
    Option (rlhresult_t × Option rlhTerm_s) :=
  match term?, atlas? with
  | none, _ => some (.RLH_RESULT_ERROR_NULL_ARGUMENT, term?)
  | _, none => some (.RLH_RESULT_ERROR_NULL_ARGUMENT, term?)
  | some term, some atlas =>
    let step := rlhTermDrawMatrix retainedMode term atlas
    some (.RLH_RESULT_OK, some step.2.1)

/-- `rlhTermPushFillTile` null-handle layer: the C function has no null
check; on a null handle `_rlhTermTryReserve` dereferences it (`none`,
undefined behaviour). -/
def rlhTermPushFillTileOpt (allocOk : Bool) (term? : Option rlhTerm_s)
    (glyph : Nat) (fg bg : rlhColor32_s) :
    Option (rlhresult_t × Option rlhTerm_s) :=
  match term? with
  | none => none
  | some term =>
    let step := rlhTermPushFillTile allocOk term glyph fg bg
    some (step.1, some step.2)

/-- `rlhTermPushTileGrid` null-handle layer: no null check in the C
function; the bounds test dereferences the handle. -/
def rlhTermPushTileGridOpt (allocOk : Bool) (term? : Option rlhTerm_s)
    (grid_x grid_y : Int) (glyph : Nat) (fg bg : rlhColor32_s) :
    Option (rlhresult_t × Option rlhTerm_s) :=
  match term? with
  | none => none
  | some term =>
    let step := rlhTermPushTileGrid allocOk term grid_x grid_y glyph fg bg
    some (step.1, some step.2)

/-- `rlhTermPushTileGridSized` null-handle layer: no null check. -/
def rlhTermPushTileGridSizedOpt (allocOk : Bool) (term? : Option rlhTerm_s)
    (grid_x grid_y tile_pixel_width tile_pixel_height : Int) (glyph : Nat)
    (fg bg : rlhColor32_s) : Option (rlhresult_t × Option rlhTerm_s) :=
  match term? with
  | none => none
  | some term =>
    let step := rlhTermPushTileGridSized allocOk term grid_x grid_y
      tile_pixel_width tile_pixel_height glyph fg bg
    some (step.1, some step.2)

/-- `rlhTermPushTileFree` null-handle layer: no null check. -/
def rlhTermPushTileFreeOpt (allocOk : Bool) (term? : Option rlhTerm_s)
    (screen_pixel_x screen_pixel_y : Int) (glyph : Nat)
    (fg bg : rlhColor32_s) : Option (rlhresult_t × Option rlhTerm_s) :=
  match term? with
  | none => none
  | some term =>
    let step := rlhTermPushTileFree allocOk term screen_pixel_x
      screen_pixel_y glyph fg bg
    some (step.1, some step.2)

/-- `rlhTermPushTileFreeSized` null-handle layer: no null check. -/
def rlhTermPushTileFreeSizedOpt (allocOk : Bool) (term? : Option rlhTerm_s)
    (screen_pixel_x screen_pixel_y tile_pixel_width tile_pixel_height : Int)
    (glyph : Nat) (fg bg : rlhColor32_s) :
    Option (rlhresult_t × Option rlhTerm_s) :=
  match term? with
  | none => none
  | some term =>
    let step := rlhTermPushTileFreeSized allocOk term screen_pixel_x
      screen_pixel_y tile_pixel_width tile_pixel_height glyph fg bg
    some (step.1, some step.2)

/-- One tile's worth of arguments to `_rlhTermPushTile`: the internal
pixel position, the pixel size, the glyph id and the two colors. -/
structure TilePush where
  pixel_x : Int
  pixel_y : Int
  pixel_w : Int
  pixel_h : Int
  glyph : Nat
  fg : rlhColor32_s
  bg : rlhColor32_s

/-- The 18 record bytes a `TilePush` produces. -/
def TilePush.bytes (p : TilePush) : List Nat :=
  tileRecordBytes p.pixel_x p.pixel_y p.pixel_w p.pixel_h p.glyph p.fg p.bg

/-- One accepted push: the common path every push variant takes once its
validation succeeded — a successful `_rlhTermTryReserve` followed by
`_rlhTermPushTile` (src/include/roguelike.h lines 1031-1075). -/
def pushAccepted (term : rlhTerm_s) (p : TilePush) : rlhTerm_s :=
  _rlhTermPushTile (_rlhTermTryReserve true term).2 p.pixel_x p.pixel_y
    p.pixel_w p.pixel_h p.glyph p.fg p.bg

/-- A sequence of accepted pushes, first element pushed first. -/
def pushAll (term : rlhTerm_s) : List TilePush → rlhTerm_s
  | [] => term
  | p :: ps => pushAll (pushAccepted term p) ps

/-- The glyph filter of the v2.0.0 variant's `_rlhTermPushTile`
(src/include/rlh/roguelike.h line 793): `if (glyph > term->atlas_glyph_count)
return;` — the tile is silently dropped only when the glyph id strictly
exceeds the glyph count. -/
def rlh2_glyphDropped (glyph atlas_glyph_count : Nat) : Bool :=
  glyph > atlas_glyph_count

/-- The highest index the v2.0.0 `_rlhTermPushTile` reads from the
`atlas_stpqp` float table for a given glyph (src/include/rlh/roguelike.h
lines 798-803: five sequential reads starting at `glyph * 5`). -/
def rlh2_stpqpHighIndex (glyph : Nat) : Nat := glyph * 5 + 4

/-- The length of the `atlas_stpqp` table for a given glyph count: five
floats per glyph (spec section 3; src/include/roguelike.h line 518). -/
def rlh2_stpqpLength (glyph_count : Nat) : Nat := glyph_count * 5

/-- A concrete terminal used as test input: a 2 by 2 tile grid of 8 by 8
pixel tiles at pixel scale 1 (console pixel size 16 by 16), with the
initial buffer capacity `TilesWide * TilesTall = 4` and an empty, zeroed
buffer. -/
def testTerm : rlhTerm_s :=
  { PixelWidth := 16
    PixelHeight := 16
    TilesWide := 2
    TilesTall := 2
    PixelScale := 1
    TileWidth := 8
    TileHeight := 8
    TileDataCapacity := 4
    TileDataCount := 0
    TileData := fun _ => 0 }

/-- `testTerm` with its buffer full (`TileDataCount = TileDataCapacity`). -/
def testTermFull : rlhTerm_s := { testTerm with TileDataCount := 4 }

/-- `testTerm` with one pending tile. -/
def testTermPending : rlhTerm_s := { testTerm with TileDataCount := 1 }

/-- A concrete atlas with 4 glyphs. -/
def testAtlas : rlhAtlas_s :=
  { PixelWidth := 8, PixelHeight := 8, PageCount := 1, GlyphCount := 4 }

/-- Opaque white, used as a test foreground color. -/
def testWhite : rlhColor32_s := { r := 255, g := 255, b := 255, a := 255 }

/-- Transparent black, used as a test background color. -/
def testBlack : rlhColor32_s := { r := 0, g := 0, b := 0, a := 0 }

/-- First concrete test push: a tile at internal pixel position (0, 0). -/
def testPush1 : TilePush :=
  { pixel_x := 0, pixel_y := 0, pixel_w := 8, pixel_h := 8, glyph := 1
    fg := testWhite, bg := testBlack }

/-- Second concrete test push: a tile at internal pixel position (3, -2). -/
def testPush2 : TilePush :=
  { pixel_x := 3, pixel_y := -2, pixel_w := 8, pixel_h := 8, glyph := 2
    fg := testWhite, bg := testBlack }

/-! ### Helper lemmas -/

theorem memWriteList_lookup (bs : List Nat) :
    ∀ (mem : Nat → Nat) (i j : Nat),
      memWriteList mem i bs j =
        if i ≤ j ∧ j < i + bs.length then bs.getD (j - i) 0 else mem j := by
  induction bs with
  | nil =>
    intro mem i j
    rw [memWriteList, if_neg (by simp only [List.length_nil]; omega)]
  | cons b bs ih =>
    intro mem i j
    rw [memWriteList, ih]
    by_cases hij : j = i
    · subst hij
      rw [if_neg (by omega), if_pos (by simp only [List.length_cons]; omega)]
      simp [memWrite, Nat.sub_self]
    · by_cases h1 : i + 1 ≤ j ∧ j < i + 1 + bs.length
      · rw [if_pos h1, if_pos (by simp only [List.length_cons]; omega)]
        have hsub : j - i = (j - (i + 1)) + 1 := by omega
        rw [hsub, List.getD_cons_succ]
      · rw [if_neg h1]
        rw [if_neg (by simp only [List.length_cons]; omega)]
        simp [memWrite, hij]

theorem tileRecordBytes_length (pixel_x pixel_y pixel_w pixel_h : Int)
    (glyph : Nat) (fg bg : rlhColor32_s) :
    (tileRecordBytes pixel_x pixel_y pixel_w pixel_h glyph fg bg).length = 18 := by
  rfl

theorem toU32_eq_toNat (x : Int) (h0 : 0 ≤ x) (h1 : x < 4294967296) :
    toU32 x = x.toNat := by
  unfold toU32
  rw [Int.emod_eq_of_lt h0 h1]

theorem decode16 (n : Nat) (h : n < 65536) :
    n % 256 + 256 * (n / 256 % 256) = n := by
  omega

theorem tryReserve_true_fst (t : rlhTerm_s) :
    (_rlhTermTryReserve true t).1 = true := by
  unfold _rlhTermTryReserve
  split <;> rfl

theorem tryReserve_true_count (t : rlhTerm_s) :
    (_rlhTermTryReserve true t).2.TileDataCount = t.TileDataCount := by
  unfold _rlhTermTryReserve
  split <;> rfl

theorem tryReserve_true_data (t : rlhTerm_s) :
    (_rlhTermTryReserve true t).2.TileData = t.TileData := by
  unfold _rlhTermTryReserve
  split <;> rfl

theorem pushAccepted_count (t : rlhTerm_s) (p : TilePush) :
    (pushAccepted t p).TileDataCount = t.TileDataCount + 1 := by
  unfold pushAccepted _rlhTermPushTile
  simp only [tryReserve_true_count]

theorem pushAccepted_data (t : rlhTerm_s) (p : TilePush) (j : Nat) :
    (pushAccepted t p).TileData j =
      if t.TileDataCount * 18 ≤ j ∧ j < t.TileDataCount * 18 + 18 then
        p.bytes.getD (j - t.TileDataCount * 18) 0
      else t.TileData j := by
  unfold pushAccepted _rlhTermPushTile
  simp only []
  rw [memWriteList_lookup]
  rw [tryReserve_true_count, tryReserve_true_data]
  rw [tileRecordBytes_length]
  rfl

theorem pushAll_spec (ps : List TilePush) :
    ∀ t : rlhTerm_s,
      (pushAll t ps).TileDataCount = t.TileDataCount + ps.length
      ∧ (∀ j, j < t.TileDataCount * 18 →
          (pushAll t ps).TileData j = t.TileData j)
      ∧ (∀ k, (hk : k < ps.length) → ∀ jj, jj < 18 →
          (pushAll t ps).TileData ((t.TileDataCount + k) * 18 + jj) =
            (ps.get ⟨k, hk⟩).bytes.getD jj 0) := by
  induction ps with
  | nil =>
    intro t
    refine ⟨rfl, fun j _ => rfl, fun k hk => absurd hk (by simp)⟩
  | cons p ps ih =>
    intro t
    have hc : (pushAccepted t p).TileDataCount = t.TileDataCount + 1 :=
      pushAccepted_count t p
    obtain ⟨ihc, ihpres, ihrec⟩ := ih (pushAccepted t p)
    refine ⟨?_, ?_, ?_⟩
    · show (pushAll (pushAccepted t p) ps).TileDataCount = _
      rw [ihc, hc, List.length_cons]
      omega
    · intro j hj
      show (pushAll (pushAccepted t p) ps).TileData j = _
      rw [ihpres j (by rw [hc]; omega)]
      rw [pushAccepted_data]
      rw [if_neg (by omega)]
    · intro k hk jj hjj
      show (pushAll (pushAccepted t p) ps).TileData _ = _
      match k with
      | 0 =>
        rw [ihpres ((t.TileDataCount + 0) * 18 + jj) (by rw [hc]; omega)]
        rw [pushAccepted_data]
        rw [if_pos (by omega)]
        have : (t.TileDataCount + 0) * 18 + jj - t.TileDataCount * 18 = jj := by
          omega
        rw [this]
        rfl
      | k' + 1 =>
        have hk' : k' < ps.length := by
          simp only [List.length_cons] at hk
          omega
        have harg : (t.TileDataCount + (k' + 1)) * 18 + jj =
            ((pushAccepted t p).TileDataCount + k') * 18 + jj := by
          rw [hc]; ring
        rw [harg, ihrec k' hk' jj hjj]
        rfl

/-! ### Claim theorems -/

/-- C1: for every sequence of N accepted pushes into a terminal starting
with an empty buffer (N may exceed the initial capacity
`TilesWide * TilesTall`; every accepted push runs `_rlhTermTryReserve`
with a succeeding `realloc` followed by `_rlhTermPushTile`), the buffer
ends with `TileDataCount = N`; each accepted push writes its 18 record
bytes at byte offset `TileDataCount * RLH_DATA_BYTES_PER_TILE` and
increments `TileDataCount` by exactly 1, preserving every byte below that
offset (in particular across every capacity-doubling reallocation); and
in the final buffer the k-th record's bytes are exactly the bytes of the
k-th push. -/
theorem growth_correctness (term : rlhTerm_s) (ps : List TilePush)
    (h0 : term.TileDataCount = 0) :
    (pushAll term ps).TileDataCount = ps.length
    ∧ (∀ (t : rlhTerm_s) (p : TilePush),
        (pushAccepted t p).TileDataCount = t.TileDataCount + 1)
    ∧ (∀ (t : rlhTerm_s) (p : TilePush) (j : Nat), j < 18 →
        (pushAccepted t p).TileData
            (t.TileDataCount * RLH_DATA_BYTES_PER_TILE + j) =
          p.bytes.getD j 0)
    ∧ (∀ (t : rlhTerm_s) (p : TilePush) (j : Nat),
        j < t.TileDataCount * RLH_DATA_BYTES_PER_TILE →
        (pushAccepted t p).TileData j = t.TileData j)
    ∧ (∀ k, (hk : k < ps.length) → ∀ j, j < 18 →
        (pushAll term ps).TileData (k * RLH_DATA_BYTES_PER_TILE + j) =
          (ps.get ⟨k, hk⟩).bytes.getD j 0) := by
  obtain ⟨hcount, hpres, hrec⟩ := pushAll_spec ps term
  refine ⟨?_, fun t p => pushAccepted_count t p, ?_, ?_, ?_⟩
  · rw [hcount, h0]
    omega
  · intro t p j hj
    rw [show RLH_DATA_BYTES_PER_TILE = 18 from rfl]
    rw [pushAccepted_data, if_pos (by omega)]
    congr 1
    omega
  · intro t p j hj
    rw [show RLH_DATA_BYTES_PER_TILE = 18 from rfl] at hj
    rw [pushAccepted_data, if_neg (by omega)]
  · intro k hk j hj
    have hx := hrec k hk j hj
    rw [h0] at hx
    rw [show RLH_DATA_BYTES_PER_TILE = 18 from rfl]
    rw [show k * 18 + j = (0 + k) * 18 + j by omega]
    exact hx

/-- Witness for `growth_correctness`: two concrete pushes into `testTerm`
leave a count of 2, and byte 18 (the first byte of the second record) is
the low byte of the biased x-coordinate `3 + 16384` of `testPush2`. -/
theorem growth_correctness_witness :
    (pushAll testTerm [testPush1, testPush2]).TileDataCount = 2
    ∧ (pushAll testTerm [testPush1, testPush2]).TileData
        (1 * RLH_DATA_BYTES_PER_TILE + 0) = 3 := by
  have h := growth_correctness testTerm [testPush1, testPush2] rfl
  refine ⟨h.1, ?_⟩
  have h5 := h.2.2.2.2 1 (by decide) 0 (by decide)
  rw [h5]
  rfl

/-- C2: on a terminal whose buffer is full (`TileDataCount =
TileDataCapacity`, the exact trigger of the reallocation, which doubles
the capacity on success), a failing reallocation makes
`_rlhTermTryReserve` return `RLH_FALSE` with the terminal untouched, and
makes every push variant whose validation passed return
`RLH_RESULT_ERROR_OUT_OF_MEMORY` with the buffer exactly as it was (same
capacity, same count, same bytes — the whole state is unchanged, so no
partial record is written); when the buffer is not full no reallocation
happens at all. -/
theorem reserve_failure_preserves_buffer (term : rlhTerm_s)
    (hfull : term.TileDataCount = term.TileDataCapacity) :
    _rlhTermTryReserve false term = (false, term)
    ∧ _rlhTermTryReserve true term =
        (true, { term with TileDataCapacity := term.TileDataCapacity * 2 })
    ∧ (∀ (t : rlhTerm_s) (allocOk : Bool),
        t.TileDataCount ≠ t.TileDataCapacity →
        _rlhTermTryReserve allocOk t = (true, t))
    ∧ (∀ glyph fg bg,
        rlhTermPushFillTile false term glyph fg bg =
          (.RLH_RESULT_ERROR_OUT_OF_MEMORY, term))
    ∧ (∀ gx gy glyph fg bg,
        ¬(gx < 0 ∨ gy < 0 ∨ gx > (term.TilesWide : Int) ∨
            gy > (term.TilesTall : Int)) →
        rlhTermPushTileGrid false term gx gy glyph fg bg =
          (.RLH_RESULT_ERROR_OUT_OF_MEMORY, term))
    ∧ (∀ gx gy w h glyph fg bg,
        ¬(gx < 0 ∨ gy < 0 ∨ gx > (term.TilesWide : Int) ∨
            gy > (term.TilesTall : Int)) →
        ¬(w ≤ 0 ∨ h ≤ 0 ∨ w > RLH_MAX_TILE_SIZE ∨ h > RLH_MAX_TILE_SIZE) →
        rlhTermPushTileGridSized false term gx gy w h glyph fg bg =
          (.RLH_RESULT_ERROR_OUT_OF_MEMORY, term))
    ∧ (∀ x y glyph fg bg,
        ¬(x < -(term.TileWidth : Int) ∨ y < -(term.TileHeight : Int) ∨
            x > (term.TileWidth : Int) ∨ y > (term.TileHeight : Int)) →
        rlhTermPushTileFree false term x y glyph fg bg =
          (.RLH_RESULT_ERROR_OUT_OF_MEMORY, term))
    ∧ (∀ x y w h glyph fg bg,
        ¬(x < -w ∨ y < -h ∨ x > (term.PixelWidth : Int) ∨
            y > (term.PixelHeight : Int)) →
        ¬(w ≤ 0 ∨ h ≤ 0 ∨ w > RLH_MAX_TILE_SIZE ∨ h > RLH_MAX_TILE_SIZE) →
        rlhTermPushTileFreeSized false term x y w h glyph fg bg =
          (.RLH_RESULT_ERROR_OUT_OF_MEMORY, term)) := by
  have hres : _rlhTermTryReserve false term = (false, term) := by
    unfold _rlhTermTryReserve
    rw [if_pos hfull]
    rfl
  refine ⟨hres, ?_, ?_, ?_, ?_, ?_, ?_, ?_⟩
  · unfold _rlhTermTryReserve
    rw [if_pos hfull]
    rfl
  · intro t allocOk hne
    unfold _rlhTermTryReserve
    rw [if_neg hne]
  · intro glyph fg bg
    unfold rlhTermPushFillTile
    rw [hres]
  · intro gx gy glyph fg bg hguard
    unfold rlhTermPushTileGrid
    rw [if_neg hguard, hres]
  · intro gx gy w h glyph fg bg hguard hsize
    unfold rlhTermPushTileGridSized
    rw [if_neg hguard, if_neg hsize, hres]
  · intro x y glyph fg bg hguard
    unfold rlhTermPushTileFree
    rw [if_neg hguard, hres]
  · intro x y w h glyph fg bg hguard hsize
    unfold rlhTermPushTileFreeSized
    rw [if_neg hguard, if_neg hsize, hres]

/-- Witness for `reserve_failure_preserves_buffer`: on the full
`testTermFull`, a failed reallocation makes the fill push and an
in-bounds grid push report out-of-memory and leave the terminal exactly
as it was. -/
theorem reserve_failure_preserves_buffer_witness :
    rlhTermPushFillTile false testTermFull 1 testWhite testBlack =
      (.RLH_RESULT_ERROR_OUT_OF_MEMORY, testTermFull)
    ∧ rlhTermPushTileGrid false testTermFull 0 0 1 testWhite testBlack =
      (.RLH_RESULT_ERROR_OUT_OF_MEMORY, testTermFull) := by
  have h := reserve_failure_preserves_buffer testTermFull rfl
  exact ⟨h.2.2.2.1 1 testWhite testBlack,
    h.2.2.2.2.1 0 0 1 testWhite testBlack (by decide)⟩

/-- C3 (code bug): `src/include/roguelike.h` performs no glyph validation
at all — a grid push with glyph id 100 into `testTerm` (paired with
`testAtlas`, which has only 4 glyphs; the push functions of this variant
never even see an atlas) succeeds and increments the count.  In the
v2.0.0 variant the filter `glyph > atlas_glyph_count`
(src/include/rlh/roguelike.h line 793) does not drop a glyph id equal to
the glyph count, whose five-float read from the `atlas_stpqp` table then
starts past the end of the table
(`rlh2_stpqpLength ≤ rlh2_stpqpHighIndex`). -/
theorem glyph_validation_missing :
    (rlhTermPushTileGrid true testTerm 0 0 100 testWhite testBlack).1 =
      .RLH_RESULT_OK
    ∧ (rlhTermPushTileGrid true testTerm 0 0 100 testWhite testBlack).2.TileDataCount = 1
    ∧ testAtlas.GlyphCount ≤ 100
    ∧ rlh2_glyphDropped testAtlas.GlyphCount testAtlas.GlyphCount = false
    ∧ rlh2_stpqpLength testAtlas.GlyphCount ≤
        rlh2_stpqpHighIndex testAtlas.GlyphCount := by
  refine ⟨rfl, rfl, by decide, by decide, by decide⟩

/-- C4 (code bug): `rlhTermPushTileFree` compares the free pixel position
against the default tile size instead of the console pixel size
(src/include/roguelike.h lines 1121-1124).  On `testTerm` (console 16 by
16 pixels, tiles 8 by 8): the tile at pixel (12, 0) overlaps the console
(`0 ≤ 12 < 16`) yet is rejected with `RLH_RESULT_TILE_OUT_OF_TERMINAL`
and does not change the terminal, while the tile at pixel (-8, 0) —
whose rectangle `[-8, 0)` does not meet `[0, 16)` — is accepted and
increments the count. -/
theorem free_push_bounds_use_tile_size :
    rlhTermPushTileFree true testTerm 12 0 7 testWhite testBlack =
      (.RLH_RESULT_TILE_OUT_OF_TERMINAL, testTerm)
    ∧ (0 : Int) ≤ 12 ∧ (12 : Int) < (testTerm.PixelWidth : Int)
    ∧ (rlhTermPushTileFree true testTerm (-8) 0 7 testWhite testBlack).1 =
        .RLH_RESULT_OK
    ∧ (rlhTermPushTileFree true testTerm (-8) 0 7 testWhite testBlack).2.TileDataCount = 1
    ∧ (-8 : Int) + (testTerm.TileWidth : Int) ≤ 0 := by
  refine ⟨rfl, by decide, by decide, rfl, rfl, by decide⟩

theorem reserveTrue_eq (t : rlhTerm_s) :
    _rlhTermTryReserve true t =
      (true, { t with TileDataCapacity :=
        if t.TileDataCount = t.TileDataCapacity then t.TileDataCapacity * 2
        else t.TileDataCapacity }) := by
  by_cases h : t.TileDataCount = t.TileDataCapacity
  · unfold _rlhTermTryReserve
    rw [if_pos h, if_pos h]
    rfl
  · unfold _rlhTermTryReserve
    rw [if_neg h, if_neg h]

theorem pushTileGrid_accept (term : rlhTerm_s) (gx gy : Int) (glyph : Nat)
    (fg bg : rlhColor32_s)
    (hacc : ¬(gx < 0 ∨ gy < 0 ∨ gx > (term.TilesWide : Int) ∨
        gy > (term.TilesTall : Int))) :
    rlhTermPushTileGrid true term gx gy glyph fg bg =
      (.RLH_RESULT_OK,
        pushAccepted term
          { pixel_x := gx * (term.TileWidth : Int)
            pixel_y := gy * (term.TileHeight : Int)
            pixel_w := (term.TileWidth : Int)
            pixel_h := (term.TileHeight : Int)
            glyph := glyph, fg := fg, bg := bg }) := by
  unfold rlhTermPushTileGrid pushAccepted
  rw [if_neg hacc, reserveTrue_eq]

theorem tileRecordBytes_decode_x (px py pw ph : Int) (glyph : Nat)
    (fg bg : rlhColor32_s)
    (h0 : 0 ≤ px + RLH_TILE_POSITION_OFFSET)
    (h1 : px + RLH_TILE_POSITION_OFFSET < 65536) :
    ((tileRecordBytes px py pw ph glyph fg bg).getD 0 0 : Int)
      + 256 * ((tileRecordBytes px py pw ph glyph fg bg).getD 1 0 : Int)
      - RLH_TILE_POSITION_OFFSET = px := by
  have hU : toU32 (px + RLH_TILE_POSITION_OFFSET) =
      (px + RLH_TILE_POSITION_OFFSET).toNat :=
    toU32_eq_toNat _ h0 (by omega)
  simp only [tileRecordBytes, List.getD_cons_zero, List.getD_cons_succ]
  rw [hU]
  rw [show RLH_TILE_POSITION_OFFSET = (16384 : Int) from rfl] at h0 h1 ⊢
  omega

theorem tileRecordBytes_decode_y (px py pw ph : Int) (glyph : Nat)
    (fg bg : rlhColor32_s)
    (h0 : 0 ≤ py + RLH_TILE_POSITION_OFFSET)
    (h1 : py + RLH_TILE_POSITION_OFFSET < 65536) :
    ((tileRecordBytes px py pw ph glyph fg bg).getD 2 0 : Int)
      + 256 * ((tileRecordBytes px py pw ph glyph fg bg).getD 3 0 : Int)
      - RLH_TILE_POSITION_OFFSET = py := by
  have hU : toU32 (py + RLH_TILE_POSITION_OFFSET) =
      (py + RLH_TILE_POSITION_OFFSET).toNat :=
    toU32_eq_toNat _ h0 (by omega)
  simp only [tileRecordBytes, List.getD_cons_zero, List.getD_cons_succ]
  rw [hU]
  rw [show RLH_TILE_POSITION_OFFSET = (16384 : Int) from rfl] at h0 h1 ⊢
  omega

/-- C5 counterexample: the grid bounds check uses strict `>` against the
grid dimensions, so on `testTerm` (grid 2 by 2) the push at grid
coordinate (2, 0) — where `2 ≥ tiles_wide = 2` should be rejected
according to the claim — is accepted: it returns `RLH_RESULT_OK` and the
count rises to 1. -/
theorem grid_push_edge_coordinate_accepted :
    (rlhTermPushTileGrid true testTerm 2 0 7 testWhite testBlack).1 =
      .RLH_RESULT_OK
    ∧ (rlhTermPushTileGrid true testTerm 2 0 7 testWhite
        testBlack).2.TileDataCount = 1
    ∧ testTerm.TilesWide = 2 := by
  refine ⟨rfl, rfl, rfl⟩

/-- C5 amended: a grid push at (x, y) is rejected with
`RLH_RESULT_TILE_OUT_OF_TERMINAL` and leaves the terminal unchanged
exactly when `x < 0`, `y < 0`, `x > tiles_wide` or `y > tiles_tall`
(strictly greater: the coordinate equal to the grid dimension is still
accepted); otherwise the push succeeds, increments the count by 1 and the
pushed record's stored position decodes to the pixel position
`(x * tile_width, y * tile_height)`. -/
theorem grid_push_bounds (term : rlhTerm_s) (gx gy : Int) (glyph : Nat)
    (fg bg : rlhColor32_s)
    (hx : gx * (term.TileWidth : Int) + RLH_TILE_POSITION_OFFSET < 65536)
    (hy : gy * (term.TileHeight : Int) + RLH_TILE_POSITION_OFFSET < 65536) :
    (gx < 0 ∨ gy < 0 ∨ gx > (term.TilesWide : Int) ∨
        gy > (term.TilesTall : Int) →
      rlhTermPushTileGrid true term gx gy glyph fg bg =
        (.RLH_RESULT_TILE_OUT_OF_TERMINAL, term))
    ∧ (¬(gx < 0 ∨ gy < 0 ∨ gx > (term.TilesWide : Int) ∨
        gy > (term.TilesTall : Int)) →
      (rlhTermPushTileGrid true term gx gy glyph fg bg).1 = .RLH_RESULT_OK
      ∧ (rlhTermPushTileGrid true term gx gy glyph fg bg).2.TileDataCount =
          term.TileDataCount + 1
      ∧ ((rlhTermPushTileGrid true term gx gy glyph fg bg).2.TileData
            (term.TileDataCount * RLH_DATA_BYTES_PER_TILE) : Int)
          + 256 * ((rlhTermPushTileGrid true term gx gy glyph fg bg).2.TileData
            (term.TileDataCount * RLH_DATA_BYTES_PER_TILE + 1) : Int)
          - RLH_TILE_POSITION_OFFSET = gx * (term.TileWidth : Int)
      ∧ ((rlhTermPushTileGrid true term gx gy glyph fg bg).2.TileData
            (term.TileDataCount * RLH_DATA_BYTES_PER_TILE + 2) : Int)
          + 256 * ((rlhTermPushTileGrid true term gx gy glyph fg bg).2.TileData
            (term.TileDataCount * RLH_DATA_BYTES_PER_TILE + 3) : Int)
          - RLH_TILE_POSITION_OFFSET = gy * (term.TileHeight : Int)) := by
  constructor
  · intro hrej
    unfold rlhTermPushTileGrid
    rw [if_pos hrej]
  · intro hacc
    have hgx : 0 ≤ gx := by omega
    have hgy : 0 ≤ gy := by omega
    have hx0 : 0 ≤ gx * (term.TileWidth : Int) + RLH_TILE_POSITION_OFFSET := by
      have hm := mul_nonneg hgx (Int.natCast_nonneg term.TileWidth)
      rw [show RLH_TILE_POSITION_OFFSET = (16384 : Int) from rfl]
      omega
    have hy0 : 0 ≤ gy * (term.TileHeight : Int) + RLH_TILE_POSITION_OFFSET := by
      have hm := mul_nonneg hgy (Int.natCast_nonneg term.TileHeight)
      rw [show RLH_TILE_POSITION_OFFSET = (16384 : Int) from rfl]
      omega
    rw [pushTileGrid_accept term gx gy glyph fg bg hacc]
    refine ⟨rfl, pushAccepted_count _ _, ?_, ?_⟩
    · show ((pushAccepted term _).TileData _ : Int) + _ - _ = _
      rw [show RLH_DATA_BYTES_PER_TILE = 18 from rfl]
      simp only [pushAccepted_data]
      rw [if_pos (show _ ∧ _ by omega), if_pos (show _ ∧ _ by omega)]
      rw [show term.TileDataCount * 18 - term.TileDataCount * 18 = 0 by omega]
      rw [show term.TileDataCount * 18 + 1 - term.TileDataCount * 18 = 1 by omega]
      simp only [TilePush.bytes]
      exact tileRecordBytes_decode_x _ _ _ _ _ _ _ hx0 hx
    · show ((pushAccepted term _).TileData _ : Int) + _ - _ = _
      rw [show RLH_DATA_BYTES_PER_TILE = 18 from rfl]
      simp only [pushAccepted_data]
      rw [if_pos (show _ ∧ _ by omega), if_pos (show _ ∧ _ by omega)]
      rw [show term.TileDataCount * 18 + 2 - term.TileDataCount * 18 = 2 by omega]
      rw [show term.TileDataCount * 18 + 3 - term.TileDataCount * 18 = 3 by omega]
      simp only [TilePush.bytes]
      exact tileRecordBytes_decode_y _ _ _ _ _ _ _ hy0 hy

/-- Witness for `grid_push_bounds`: on `testTerm`, the push at grid
(-1, 0) is rejected with the terminal unchanged, and the push at grid
(1, 2) — within the amended bounds since `2 > tiles_tall = 2` is false —
returns `RLH_RESULT_OK`. -/
theorem grid_push_bounds_witness :
    rlhTermPushTileGrid true testTerm (-1) 0 7 testWhite testBlack =
      (.RLH_RESULT_TILE_OUT_OF_TERMINAL, testTerm)
    ∧ (rlhTermPushTileGrid true testTerm 1 2 7 testWhite testBlack).1 =
        .RLH_RESULT_OK := by
  have h1 := grid_push_bounds testTerm (-1) 0 7 testWhite testBlack
    (by decide) (by decide)
  have h2 := grid_push_bounds testTerm 1 2 7 testWhite testBlack
    (by decide) (by decide)
  exact ⟨h1.1 (by decide), (h2.2 (by decide)).1⟩

/-- C6: the record stores `x + RLH_TILE_POSITION_OFFSET` and
`y + RLH_TILE_POSITION_OFFSET` (bias 16384) as unsigned 16-bit
little-endian fields — byte 0 (resp. 2) is the low byte and byte 1
(resp. 3) the high byte — and decoding `low + 256 * high` and
subtracting the bias recovers the coordinate exactly for every
coordinate in [-16384, 49151]. -/
theorem bias_encoding_roundtrip (px py pw ph : Int) (glyph : Nat)
    (fg bg : rlhColor32_s)
    (hx0 : -16384 ≤ px) (hx1 : px ≤ 49151)
    (hy0 : -16384 ≤ py) (hy1 : py ≤ 49151) :
    (tileRecordBytes px py pw ph glyph fg bg).getD 0 0 =
        (px + RLH_TILE_POSITION_OFFSET).toNat % 256
    ∧ (tileRecordBytes px py pw ph glyph fg bg).getD 1 0 =
        (px + RLH_TILE_POSITION_OFFSET).toNat / 256 % 256
    ∧ ((tileRecordBytes px py pw ph glyph fg bg).getD 0 0 : Int)
        + 256 * ((tileRecordBytes px py pw ph glyph fg bg).getD 1 0 : Int)
        - RLH_TILE_POSITION_OFFSET = px
    ∧ ((tileRecordBytes px py pw ph glyph fg bg).getD 2 0 : Int)
        + 256 * ((tileRecordBytes px py pw ph glyph fg bg).getD 3 0 : Int)
        - RLH_TILE_POSITION_OFFSET = py := by
  have hx0' : 0 ≤ px + RLH_TILE_POSITION_OFFSET := by
    rw [show RLH_TILE_POSITION_OFFSET = (16384 : Int) from rfl]
    omega
  have hx1' : px + RLH_TILE_POSITION_OFFSET < 65536 := by
    rw [show RLH_TILE_POSITION_OFFSET = (16384 : Int) from rfl]
    omega
  have hy0' : 0 ≤ py + RLH_TILE_POSITION_OFFSET := by
    rw [show RLH_TILE_POSITION_OFFSET = (16384 : Int) from rfl]
    omega
  have hy1' : py + RLH_TILE_POSITION_OFFSET < 65536 := by
    rw [show RLH_TILE_POSITION_OFFSET = (16384 : Int) from rfl]
    omega
  have hUx : toU32 (px + RLH_TILE_POSITION_OFFSET) =
      (px + RLH_TILE_POSITION_OFFSET).toNat :=
    toU32_eq_toNat _ hx0' (by omega)
  refine ⟨?_, ?_, tileRecordBytes_decode_x px py pw ph glyph fg bg hx0' hx1',
    tileRecordBytes_decode_y px py pw ph glyph fg bg hy0' hy1'⟩
  · simp only [tileRecordBytes, List.getD_cons_zero]
    rw [hUx]
  · simp only [tileRecordBytes, List.getD_cons_zero, List.getD_cons_succ]
    rw [hUx]

/-- Witness for `bias_encoding_roundtrip`: the record of a tile at
internal pixel position (-5, 49151) decodes back to exactly (-5, 49151),
and its low x byte is `(-5 + 16384) % 256 = 251`. -/
theorem bias_encoding_roundtrip_witness :
    (tileRecordBytes (-5) 49151 8 8 7 testWhite testBlack).getD 0 0 = 251
    ∧ ((tileRecordBytes (-5) 49151 8 8 7 testWhite testBlack).getD 0 0 : Int)
        + 256 * ((tileRecordBytes (-5) 49151 8 8 7 testWhite
          testBlack).getD 1 0 : Int)
        - RLH_TILE_POSITION_OFFSET = -5
    ∧ ((tileRecordBytes (-5) 49151 8 8 7 testWhite testBlack).getD 2 0 : Int)
        + 256 * ((tileRecordBytes (-5) 49151 8 8 7 testWhite
          testBlack).getD 3 0 : Int)
        - RLH_TILE_POSITION_OFFSET = 49151 := by
  have h := bias_encoding_roundtrip (-5) 49151 8 8 7 testWhite testBlack
    (by decide) (by decide) (by decide) (by decide)
  refine ⟨?_, h.2.2.1, h.2.2.2⟩
  rw [h.1]
  rfl

/-- C7 counterexample: `rlhAtlasSetData` (src/include/roguelike.h lines
677-711) receives only the atlas and recreates its GPU resources; it
never touches a terminal, so after an atlas replacement the pending tile
of `testTermPending` is still there — the tile count is 1, not 0. -/
theorem atlas_set_data_keeps_pending_tiles :
    (rlhAtlasSetDataW (testTermPending, testAtlas) 8 8 1 16).1 =
      .RLH_RESULT_OK
    ∧ (rlhAtlasSetDataW (testTermPending, testAtlas) 8 8 1
        16).2.1.TileDataCount = 1 := by
  refine ⟨rfl, rfl⟩

/-- C7 amended: after `rlhTermResizePixelDimensions` or
`rlhTermResizeTileDimensions` with valid arguments the tile count is 0
even if tiles were pending, while the buffer's capacity and bytes are
preserved unchanged; `rlhAtlasSetData`, however, operates on the atlas
object alone and leaves every terminal — pending tiles included —
exactly as it was. -/
theorem resize_resets_count_preserves_capacity (term : rlhTerm_s)
    (pw ph : Int) (ps : ℚ) (tw th : Int) (fpt : Bool)
    (hvalid : ¬(pw ≤ 0 ∨ ph ≤ 0 ∨ ps ≤ 0 ∨ tw ≤ 0 ∨ th ≤ 0)) :
    ((rlhTermResizePixelDimensions term pw ph ps tw th fpt).1 =
        .RLH_RESULT_OK
      ∧ (rlhTermResizePixelDimensions term pw ph ps tw th
          fpt).2.TileDataCount = 0
      ∧ (rlhTermResizePixelDimensions term pw ph ps tw th
          fpt).2.TileDataCapacity = term.TileDataCapacity
      ∧ (rlhTermResizePixelDimensions term pw ph ps tw th fpt).2.TileData =
          term.TileData)
    ∧ (∀ tiles_wide tiles_tall : Int,
        ¬(tiles_wide ≤ 0 ∨ tiles_tall ≤ 0 ∨ ps ≤ 0 ∨ tw ≤ 0 ∨ th ≤ 0) →
        ¬(⌊((tiles_wide * tw : Int) : ℚ) * ps⌋ ≤ 0 ∨
            ⌊((tiles_tall * th : Int) : ℚ) * ps⌋ ≤ 0 ∨ ps ≤ 0 ∨
            tw ≤ 0 ∨ th ≤ 0) →
        (rlhTermResizeTileDimensions term tiles_wide tiles_tall ps tw
            th).1 = .RLH_RESULT_OK
        ∧ (rlhTermResizeTileDimensions term tiles_wide tiles_tall ps tw
            th).2.TileDataCount = 0
        ∧ (rlhTermResizeTileDimensions term tiles_wide tiles_tall ps tw
            th).2.TileDataCapacity = term.TileDataCapacity)
    ∧ (∀ (world : rlhTerm_s × rlhAtlas_s) (apw aph apc agc : Int),
        (rlhAtlasSetDataW world apw aph apc agc).2.1 = world.1) := by
  refine ⟨?_, ?_, ?_⟩
  · unfold rlhTermResizePixelDimensions
    rw [if_neg hvalid]
    exact ⟨rfl, rfl, rfl, rfl⟩
  · intro tiles_wide tiles_tall hguard hpix
    unfold rlhTermResizeTileDimensions
    rw [if_neg hguard]
    unfold rlhTermResizePixelDimensions
    rw [if_neg hpix]
    exact ⟨rfl, rfl, rfl⟩
  · intro world apw aph apc agc
    unfold rlhAtlasSetDataW rlhAtlasSetData
    split <;> rfl

/-- Witness for `resize_resets_count_preserves_capacity`: resizing the
pending terminal to 24 by 24 pixels resets the count to 0 and keeps the
capacity 4, and a tile-dimension resize to a 3 by 3 grid does the same. -/
theorem resize_resets_count_witness :
    (rlhTermResizePixelDimensions testTermPending 24 24 1 8 8
        false).2.TileDataCount = 0
    ∧ (rlhTermResizePixelDimensions testTermPending 24 24 1 8 8
        false).2.TileDataCapacity = 4
    ∧ (rlhTermResizeTileDimensions testTermPending 3 3 1 8 8).2.TileDataCount = 0
    ∧ (rlhAtlasSetDataW (testTermPending, testAtlas) 8 8 1 16).2.1 =
        testTermPending := by
  have h := resize_resets_count_preserves_capacity testTermPending 24 24 1 8 8
    false (by norm_num)
  have h2 := h.2.1 3 3 (by norm_num) (by norm_num)
  exact ⟨h.1.2.1, h.1.2.2.1, h2.2.1, h.2.2 (testTermPending, testAtlas) 8 8 1 16⟩

/-- C8: with a terminal and an atlas (both non-null), a draw with live
tile count 0 issues no GPU draw and returns `RLH_RESULT_OK` (a no-op,
not an error), and — when retained mode is not configured — every draw
leaves the tile count 0 afterwards, so the next frame starts empty.
Every draw returns `RLH_RESULT_OK`. -/
theorem draw_empty_noop_and_reset (retained : Bool) (term : rlhTerm_s)
    (atlas : rlhAtlas_s) :
    (term.TileDataCount = 0 →
      rlhTermDrawMatrix retained term atlas = (.RLH_RESULT_OK, term, false)
      ∧ rlhTermDrawMatrixOpt retained (some term) (some atlas) (some ()) =
          some (.RLH_RESULT_OK, some term))
    ∧ (rlhTermDrawMatrix false term atlas).2.1.TileDataCount = 0
    ∧ (rlhTermDrawMatrix retained term atlas).1 = .RLH_RESULT_OK := by
  refine ⟨?_, ?_, ?_⟩
  · intro h0
    have hz : rlhTermDrawMatrix retained term atlas =
        (.RLH_RESULT_OK, term, false) := by
      unfold rlhTermDrawMatrix
      rw [if_neg (by omega)]
    refine ⟨hz, ?_⟩
    simp only [rlhTermDrawMatrixOpt, hz]
  · unfold rlhTermDrawMatrix
    split
    · rfl
    · show term.TileDataCount = 0
      omega
  · unfold rlhTermDrawMatrix
    split <;> rfl

/-- Witness for `draw_empty_noop_and_reset`: drawing the empty `testTerm`
with `testAtlas` in non-retained mode is a no-op returning
`RLH_RESULT_OK`, and drawing the pending terminal leaves the count 0. -/
theorem draw_empty_noop_witness :
    rlhTermDrawMatrix false testTerm testAtlas =
      (.RLH_RESULT_OK, testTerm, false)
    ∧ (rlhTermDrawMatrix false testTermPending testAtlas).2.1.TileDataCount = 0 := by
  have h1 := draw_empty_noop_and_reset false testTerm testAtlas
  have h2 := draw_empty_noop_and_reset false testTermPending testAtlas
  exact ⟨(h1.1 rfl).1, h2.2.1⟩

/-- C9 counterexample: a push on a null terminal handle does not return
`RLH_RESULT_ERROR_NULL_ARGUMENT` — the C push variants have no null
check, so the handle is dereferenced (modelled as `none`: undefined
behaviour) — while `rlhTermClearTileData` on the same null handle does
return the null-argument status. -/
theorem null_push_dereferences :
    rlhTermPushTileGridOpt true none 0 0 7 testWhite testBlack = none
    ∧ rlhTermClearTileDataOpt none =
        some (.RLH_RESULT_ERROR_NULL_ARGUMENT, none) := by
  refine ⟨rfl, rfl⟩

/-- C9 amended: clear, the two resizes and the four draw variants return
`RLH_RESULT_ERROR_NULL_ARGUMENT` on a null terminal handle; the five
push variants perform no null check at all and dereference the null
handle (undefined behaviour, modelled as `none`). -/
theorem null_handle_behaviour :
    rlhTermClearTileDataOpt none =
      some (.RLH_RESULT_ERROR_NULL_ARGUMENT, none)
    ∧ (∀ (pw ph : Int) (ps : ℚ) (tw th : Int) (fpt : Bool),
        rlhTermResizePixelDimensionsOpt none pw ph ps tw th fpt =
          some (.RLH_RESULT_ERROR_NULL_ARGUMENT, none))
    ∧ (∀ (tws tts : Int) (ps : ℚ) (tw th : Int),
        rlhTermResizeTileDimensionsOpt none tws tts ps tw th =
          some (.RLH_RESULT_ERROR_NULL_ARGUMENT, none))
    ∧ (∀ (retained : Bool) (atlas? : Option rlhAtlas_s)
        (matrix? : Option Unit),
        rlhTermDrawMatrixOpt retained none atlas? matrix? =
          some (.RLH_RESULT_ERROR_NULL_ARGUMENT, none))
    ∧ (∀ (retained : Bool) (atlas? : Option rlhAtlas_s),
        rlhTermDrawOpt retained none atlas? =
          some (.RLH_RESULT_ERROR_NULL_ARGUMENT, none))
    ∧ (∀ (retained : Bool) (atlas? : Option rlhAtlas_s) (vw vh : Int),
        rlhTermDrawCenteredOpt retained none atlas? vw vh =
          some (.RLH_RESULT_ERROR_NULL_ARGUMENT, none))
    ∧ (∀ (retained : Bool) (atlas? : Option rlhAtlas_s) (tx ty vw vh : Int),
        rlhTermDrawTranslatedOpt retained none atlas? tx ty vw vh =
          some (.RLH_RESULT_ERROR_NULL_ARGUMENT, none))
    ∧ (∀ (retained : Bool) (atlas? : Option rlhAtlas_s) (tx ty : Int)
        (sx sy : ℚ) (vw vh : Int),
        rlhTermDrawTransformedOpt retained none atlas? tx ty sx sy vw vh =
          some (.RLH_RESULT_ERROR_NULL_ARGUMENT, none))
    ∧ (∀ (allocOk : Bool) (glyph : Nat) (fg bg : rlhColor32_s),
        rlhTermPushFillTileOpt allocOk none glyph fg bg = none)
    ∧ (∀ (allocOk : Bool) (gx gy : Int) (glyph : Nat) (fg bg : rlhColor32_s),
        rlhTermPushTileGridOpt allocOk none gx gy glyph fg bg = none)
    ∧ (∀ (allocOk : Bool) (gx gy w h : Int) (glyph : Nat)
        (fg bg : rlhColor32_s),
        rlhTermPushTileGridSizedOpt allocOk none gx gy w h glyph fg bg = none)
    ∧ (∀ (allocOk : Bool) (x y : Int) (glyph : Nat) (fg bg : rlhColor32_s),
        rlhTermPushTileFreeOpt allocOk none x y glyph fg bg = none)
    ∧ (∀ (allocOk : Bool) (x y w h : Int) (glyph : Nat)
        (fg bg : rlhColor32_s),
        rlhTermPushTileFreeSizedOpt allocOk none x y w h glyph fg bg =
          none) := by
  refine ⟨rfl, fun _ _ _ _ _ _ => rfl, fun _ _ _ _ _ => rfl,
    ?_, ?_, ?_, ?_, ?_,
    fun _ _ _ _ => rfl, fun _ _ _ _ _ _ => rfl,
    fun _ _ _ _ _ _ _ _ => rfl, fun _ _ _ _ _ _ => rfl,
    fun _ _ _ _ _ _ _ _ => rfl⟩
  · intro retained atlas? matrix?
    cases atlas? <;> cases matrix? <;> rfl
  · intro retained atlas?
    cases atlas? <;> rfl
  · intro retained atlas? vw vh
    cases atlas? <;> rfl
  · intro retained atlas? tx ty vw vh
    cases atlas? <;> rfl
  · intro retained atlas? tx ty sx sy vw vh
    cases atlas? <;> rfl

/-- C10 (code bug): the result codes do not line up with
`RLH_RESULT_DESCRIPTIONS`.  The array has `RLH_RESULT_COUNT = 5` entries
for codes whose values run up to 5: indexing with
`RLH_RESULT_TILE_OUT_OF_TERMINAL` (value 2) yields the null-argument
description instead of the tile-out-of-terminal one, and indexing with
`RLH_RESULT_ERROR_OUT_OF_MEMORY` (value 5) is out of the array's bounds
— although the header's own documentation says to index the array with
the result code (the v2.0.0 header renumbers the codes 0..4 to fix
this). -/
theorem result_descriptions_mismatch :
    RLH_RESULT_DESCRIPTIONS.length = RLH_RESULT_COUNT
    ∧ rlhresult_value .RLH_RESULT_TILE_OUT_OF_TERMINAL = 2
    ∧ RLH_RESULT_DESCRIPTIONS.get?
        (rlhresult_value .RLH_RESULT_TILE_OUT_OF_TERMINAL) =
      some "unexpected null argument"
    ∧ RLH_RESULT_DESCRIPTIONS.get? 1 = some "tile out of terminal"
    ∧ rlhresult_value .RLH_RESULT_ERROR_OUT_OF_MEMORY = 5
    ∧ RLH_RESULT_DESCRIPTIONS.get?
        (rlhresult_value .RLH_RESULT_ERROR_OUT_OF_MEMORY) = none := by
  refine ⟨rfl, rfl, rfl, rfl, rfl, rfl⟩
